import Mathlib

/-!
Shallow embedding of the Market-Data-Pipeline repository.

The repository has three Python source files:
- `examples/run_example.py`: `validate_and_parse` (row → TickData or raise)
  and `process_file` (CSV rows → valid ticks + rejected rows).
- `tests/test_ingestion.py`: `validate_symbol`, `validate_price`,
  `validate_volume`, `validate_timestamp`, `parse_tick`.
- `src/ingestion_engine.py`: `FinancialDataPipeline.validate_batch`
  (pandas DataFrame filtering).

Machine-level Python values are embedded as follows: `decimal.Decimal`
values as `ℚ` (exact decimal arithmetic), `int` as `ℤ`, `datetime` as a
`PyDatetime` record holding the epoch value of its naive fields plus an
optional UTC-offset (in minutes; `none` models a timezone-naive value).
Raised exceptions are an explicit `Except` error channel, with the
exception class (and message, for `ValidationError`) as the error value.
The wall clock `datetime.now(timezone.utc)` is passed explicitly as an
integer `now` (epoch seconds).
-/

/-! ### Python ASCII character and string primitives -/

/-- ASCII whitespace, as stripped by Python `str.strip()` / `int()` /
`Decimal()` (space, tab, newline, carriage return, vertical tab, form feed). -/
def pyIsSpace (c : Char) : Bool :=
  c = ' ' || c = '\t' || c = '\n' || c = '\r' || c.toNat = 11 || c.toNat = 12

/-- ASCII lowercase letter test (`str.islower` on one char, ASCII range). -/
def pyIsLower (c : Char) : Bool := 97 ≤ c.toNat && c.toNat ≤ 122

/-- ASCII uppercase letter test. -/
def pyIsUpperChar (c : Char) : Bool := 65 ≤ c.toNat && c.toNat ≤ 90

/-- ASCII letter (cased character) test. -/
def pyIsAlpha (c : Char) : Bool := pyIsLower c || pyIsUpperChar c

/-- Python `str.upper()` on one character (ASCII range). -/
def pyToUpperChar (c : Char) : Char :=
  if pyIsLower c then Char.ofNat (c.toNat - 32) else c

/-- Strip leading and trailing whitespace from a char list. -/
def pyStripList (cs : List Char) : List Char :=
  ((cs.dropWhile pyIsSpace).reverse.dropWhile pyIsSpace).reverse

/-- Python `str.strip()`. -/
def pyStrip (s : String) : String := String.mk (pyStripList s.data)

/-- Python `str.upper()`. -/
def pyUpper (s : String) : String := String.mk (s.data.map pyToUpperChar)

/-- Python `str.isupper()`: at least one cased character and no lowercase
cased character (ASCII subset). -/
def pyIsUpper (s : String) : Bool :=
  s.data.any pyIsAlpha && s.data.all (fun c => !(pyIsLower c))

/-- A string containing no ASCII lowercase letter. -/
def noLowerStr (s : String) : Bool := s.data.all (fun c => !(pyIsLower c))

/-! ### Numeric string parsing -/

def isDigitChar (c : Char) : Bool := 48 ≤ c.toNat && c.toNat ≤ 57

def digitVal (c : Char) : ℕ := c.toNat - 48

def natOfDigits (ds : List Char) : ℕ :=
  ds.foldl (fun a c => 10 * a + digitVal c) 0

/-- Consume an optional leading sign; returns (isNegative, rest). -/
def parseSign : List Char → Bool × List Char
  | '+' :: r => (false, r)
  | '-' :: r => (true, r)
  | cs => (false, cs)

/-- Python `Decimal(s)` on the plain numeric-string subset
`[ws] [sign] (digits [. digits] | . digits) [ws]`, returning the exact
rational value, or `none` for a malformed string (Python raises
`decimal.InvalidOperation` there). Exponent forms, underscores and the
special values (NaN/Infinity) lie outside the inputs this development
evaluates and are not modelled. -/
def pyDecimal (s : String) : Option ℚ :=
  let cs := pyStripList s.data
  let (neg, cs) := parseSign cs
  let ip := cs.takeWhile isDigitChar
  let rest := cs.dropWhile isDigitChar
  match rest with
  | [] =>
    if ip = [] then none
    else some (mkRat ((if neg then -1 else 1) * (natOfDigits ip : ℤ)) 1)
  | '.' :: rest2 =>
    let fp := rest2.takeWhile isDigitChar
    let rest3 := rest2.dropWhile isDigitChar
    if rest3 = [] ∧ (ip ≠ [] ∨ fp ≠ []) then
      some (mkRat
        ((if neg then -1 else 1) *
          ((natOfDigits ip * 10 ^ fp.length + natOfDigits fp : ℕ) : ℤ))
        (10 ^ fp.length))
    else none
  | _ => none

/-- Python `int(s)` on a base-10 string: optional whitespace, optional
sign, one or more digits (underscore grouping not modelled); `none` where
Python raises `ValueError`. -/
def pyInt (s : String) : Option ℤ :=
  let cs := pyStripList s.data
  let (neg, cs) := parseSign cs
  if cs ≠ [] ∧ cs.all isDigitChar then
    some ((if neg then -1 else 1) * (natOfDigits cs : ℤ))
  else none

/-! ### Calendar arithmetic and ISO-8601 parsing (`datetime.fromisoformat`) -/

def isLeapYear (y : ℕ) : Bool :=
  y % 4 = 0 && (y % 100 ≠ 0 || y % 400 = 0)

def daysInMonth (y m : ℕ) : ℕ :=
  if m = 2 then (if isLeapYear y then 29 else 28)
  else if m = 4 ∨ m = 6 ∨ m = 9 ∨ m = 11 then 30
  else 31

/-- Days from civil date to the proleptic-Gregorian day number
(days since 0000-03-01), for years ≥ 1. -/
def daysFromCivil (y m d : ℕ) : ℕ :=
  let y2 := if m ≤ 2 then y - 1 else y
  let era := y2 / 400
  let yoe := y2 % 400
  let mp := if m > 2 then m - 3 else m + 9
  let doy := (153 * mp + 2) / 5 + d - 1
  let doe := yoe * 365 + yoe / 4 - yoe / 100 + doy
  era * 146097 + doe

/-- Seconds since the Unix epoch of the given naive civil date-time. -/
def epochSeconds (y m d hh mm ss : ℕ) : ℤ :=
  ((daysFromCivil y m d : ℤ) - 719468) * 86400 +
    (hh : ℤ) * 3600 + (mm : ℤ) * 60 + (ss : ℤ)

/-- A Python `datetime`: the epoch value of its naive fields, plus the
UTC offset in minutes when the value is timezone-aware (`none` = naive).
An aware value's instant on the UTC timeline is
`fieldsEpoch - 60 * offset`. -/
structure PyDatetime where
  fieldsEpoch : ℤ
  offsetMin : Option ℤ
deriving DecidableEq, Repr

/-- Read exactly `n` digit characters as a number. -/
def parseFixedDigits (n : ℕ) (cs : List Char) : Option (ℕ × List Char) :=
  let ds := cs.take n
  if ds.length = n ∧ ds.all isDigitChar then some (natOfDigits ds, cs.drop n)
  else none

def expectChar (c : Char) : List Char → Option (List Char)
  | c2 :: r => if c2 = c then some r else none
  | [] => none

/-- Parse the `HH:MM[:SS][±HH:MM|Z]` tail of an ISO-8601 string
(fractional seconds and seconds-bearing offsets are outside the inputs
this development evaluates and are not modelled). -/
def parseTimePart (y m d : ℕ) (r : List Char) : Option PyDatetime := do
  let (hh, r) ← parseFixedDigits 2 r
  let r ← expectChar ':' r
  let (mi, r) ← parseFixedDigits 2 r
  let (ss, r) ←
    match r with
    | ':' :: r2 => do
        let (ss, r3) ← parseFixedDigits 2 r2
        pure (ss, r3)
    | _ => pure (0, r)
  if hh ≤ 23 ∧ mi ≤ 59 ∧ ss ≤ 59 then
    let base := epochSeconds y m d hh mi ss
    match r with
    | [] => some ⟨base, none⟩
    | ['Z'] => some ⟨base, some 0⟩
    | c :: r5 =>
      if c = '+' ∨ c = '-' then do
        let (oh, r6) ← parseFixedDigits 2 r5
        let r7 ← expectChar ':' r6
        let (om, r8) ← parseFixedDigits 2 r7
        if r8 = [] ∧ oh ≤ 23 ∧ om ≤ 59 then
          some ⟨base, some (if c = '-' then -((oh * 60 + om : ℕ) : ℤ)
                            else ((oh * 60 + om : ℕ) : ℤ))⟩
        else none
      else none
  else none

/-- Python `datetime.fromisoformat` on the subset
`YYYY-MM-DD[{T| }HH:MM[:SS][±HH:MM|Z]]`; `none` where Python raises
`ValueError`. A missing offset yields a timezone-naive value. -/
def pyFromIsoformat (s : String) : Option PyDatetime := do
  let cs := s.data
  let (y, r) ← parseFixedDigits 4 cs
  let r ← expectChar '-' r
  let (m, r) ← parseFixedDigits 2 r
  let r ← expectChar '-' r
  let (d, r) ← parseFixedDigits 2 r
  if 1 ≤ y ∧ 1 ≤ m ∧ m ≤ 12 ∧ 1 ≤ d ∧ d ≤ daysInMonth y m then
    match r with
    | [] => some ⟨epochSeconds y m d 0 0 0, none⟩
    | sep :: r2 =>
      if sep = 'T' ∨ sep = ' ' then parseTimePart y m d r2 else none
  else none

/-! ### Exceptions, rows, ticks -/

/-- The message variants carried by `ValidationError` raises in the two
modules (the f-string payloads are identified by their format string). -/
inductive VMsg
  | emptySymbol
  | priceOutOfBounds
  | negativeVolume
  | futureTimestamp
  | invalidSymbol
  | symbolTooLong
  | pricePositive
  | priceExceedsMax
  | volumeNegative
  | timestampFuture
deriving DecidableEq, Repr

/-- Python exception classes that the repository's code can raise while
validating one record. `invalidOperation` is `decimal.InvalidOperation`
(a subclass of `ArithmeticError`, not of `ValueError`); `typeError` is
the `TypeError` from comparing naive and aware datetimes. -/
inductive PyExc
  | validationError (m : VMsg)
  | valueError
  | keyError
  | typeError
  | invalidOperation
deriving DecidableEq, Repr

/-- A raw input record: the string-keyed, string-valued mapping handed to
`validate_and_parse` (CSV row) or `parse_tick`, restricted to the five
keys the code reads; `none` models an absent key. -/
structure Row where
  symbol : Option String := none
  price : Option String := none
  volume : Option String := none
  timestamp : Option String := none
  exchange : Option String := none
deriving DecidableEq, Repr

/-- The `TickData` dataclass (identical in `run_example.py` and
`test_ingestion.py`). -/
structure TickData where
  symbol : String
  price : ℚ
  volume : ℤ
  timestamp : PyDatetime
  exchange : String
deriving DecidableEq, Repr

/-! ### `examples/run_example.py` -/

namespace RunExample

/-- Function `validate_and_parse(row)` from `examples/run_example.py`, with the
wall clock `datetime.now(timezone.utc)` passed as `now` (epoch seconds).
Statement-by-statement translation:
symbol access + strip/upper + emptiness check, `Decimal(row["price"])` +
bounds check, `int(row["volume"])` + sign check,
`datetime.fromisoformat(row["timestamp"])` + future check (which raises
`TypeError` when the parsed value is naive, since `now` is aware),
then the `TickData` construction with `row.get("exchange", "UNKNOWN")`. -/
def validate_and_parse (row : Row) (now : ℤ) : Except PyExc TickData :=
  match row.symbol with
  | none => .error .keyError
  | some sraw =>
    let symbol := pyUpper (pyStrip sraw)
    if symbol = "" then .error (.validationError .emptySymbol)
    else
      match row.price with
      | none => .error .keyError
      | some praw =>
        match pyDecimal praw with
        | none => .error .invalidOperation
        | some price =>
          if price ≤ 0 ∨ price > 1000000 then
            .error (.validationError .priceOutOfBounds)
          else
            match row.volume with
            | none => .error .keyError
            | some vraw =>
              match pyInt vraw with
              | none => .error .valueError
              | some volume =>
                if volume < 0 then .error (.validationError .negativeVolume)
                else
                  match row.timestamp with
                  | none => .error .keyError
                  | some traw =>
                    match pyFromIsoformat traw with
                    | none => .error .valueError
                    | some ts =>
                      match ts.offsetMin with
                      | none => .error .typeError
                      | some o =>
                        if ts.fieldsEpoch - o * 60 > now then
                          .error (.validationError .futureTimestamp)
                        else
                          .ok ⟨symbol, price, volume, ts,
                               row.exchange.getD "UNKNOWN"⟩

/-- The symbol statement of `validate_and_parse` in isolation. -/
def symbolStep (row : Row) : Except PyExc String :=
  match row.symbol with
  | none => .error .keyError
  | some sraw =>
    let symbol := pyUpper (pyStrip sraw)
    if symbol = "" then .error (.validationError .emptySymbol) else .ok symbol

/-- The price statements of `validate_and_parse` in isolation. -/
def priceStep (row : Row) : Except PyExc ℚ :=
  match row.price with
  | none => .error .keyError
  | some praw =>
    match pyDecimal praw with
    | none => .error .invalidOperation
    | some price =>
      if price ≤ 0 ∨ price > 1000000 then
        .error (.validationError .priceOutOfBounds)
      else .ok price

/-- The volume statements of `validate_and_parse` in isolation. -/
def volumeStep (row : Row) : Except PyExc ℤ :=
  match row.volume with
  | none => .error .keyError
  | some vraw =>
    match pyInt vraw with
    | none => .error .valueError
    | some volume =>
      if volume < 0 then .error (.validationError .negativeVolume)
      else .ok volume

/-- The timestamp statements of `validate_and_parse` in isolation. -/
def timestampStep (row : Row) (now : ℤ) : Except PyExc PyDatetime :=
  match row.timestamp with
  | none => .error .keyError
  | some traw =>
    match pyFromIsoformat traw with
    | none => .error .valueError
    | some ts =>
      match ts.offsetMin with
      | none => .error .typeError
      | some o =>
        if ts.fieldsEpoch - o * 60 > now then
          .error (.validationError .futureTimestamp)
        else .ok ts

/-- The exception classes caught by `process_file`'s
`except (ValidationError, ValueError, KeyError)` clause. `TypeError` and
`decimal.InvalidOperation` are not among them and propagate. -/
def catchable : PyExc → Bool
  | .validationError _ => true
  | .valueError => true
  | .keyError => true
  | .typeError => false
  | .invalidOperation => false

/-- Function `process_file` from `examples/run_example.py`: fold over the CSV rows,
appending each row's tick to `valid` or the row (with the caught
exception) to `rejected`; an uncaught exception aborts the whole call. -/
def process_file (rows : List Row) (now : ℤ) :
    Except PyExc (List TickData × List (Row × PyExc)) :=
  match rows with
  | [] => .ok ([], [])
  | r :: rest =>
    match validate_and_parse r now with
    | .ok t =>
      (process_file rest now).map (fun p => (t :: p.1, p.2))
    | .error e =>
      if catchable e then
        (process_file rest now).map (fun p => (p.1, (r, e) :: p.2))
      else .error e

end RunExample

/-! ### `tests/test_ingestion.py` -/

namespace TestIngestion

/-- Function `validate_symbol` from `tests/test_ingestion.py`:
`if not symbol or not symbol.isupper()` then raise, then the length
check; no trimming or upper-casing is performed. -/
def validate_symbol (symbol : String) : Except PyExc String :=
  if symbol = "" ∨ pyIsUpper symbol = false then
    .error (.validationError .invalidSymbol)
  else if symbol.length > 10 then .error (.validationError .symbolTooLong)
  else .ok symbol

/-- Function `validate_price` from `tests/test_ingestion.py`. -/
def validate_price (price : ℚ) : Except PyExc ℚ :=
  if price ≤ 0 then .error (.validationError .pricePositive)
  else if price > 1000000 then .error (.validationError .priceExceedsMax)
  else .ok price

/-- Function `validate_volume` from `tests/test_ingestion.py`. -/
def validate_volume (volume : ℤ) : Except PyExc ℤ :=
  if volume < 0 then .error (.validationError .volumeNegative)
  else .ok volume

/-- Function `validate_timestamp` from `tests/test_ingestion.py`, with
`datetime.now(timezone.utc)` passed as `now`. Comparing a naive `ts`
against the aware `now` raises `TypeError`. -/
def validate_timestamp (ts : PyDatetime) (now : ℤ) : Except PyExc PyDatetime :=
  match ts.offsetMin with
  | none => .error .typeError
  | some o =>
    if ts.fieldsEpoch - o * 60 > now then
      .error (.validationError .timestampFuture)
    else .ok ts

/-- The `symbol=` keyword argument of `parse_tick`:
`validate_symbol(raw.get("symbol", ""))`. -/
def tickSymbolStep (raw : Row) : Except PyExc String :=
  validate_symbol (raw.symbol.getD "")

/-- The `price=` keyword argument of `parse_tick`:
`validate_price(Decimal(str(raw.get("price", 0))))` — a missing price
key defaults to the int `0`, whose `str` is `"0"`; `str` of a present
string value is that string. -/
def tickPriceStep (raw : Row) : Except PyExc ℚ :=
  match pyDecimal (raw.price.getD "0") with
  | none => .error .invalidOperation
  | some p => validate_price p

/-- The `volume=` keyword argument of `parse_tick`:
`validate_volume(int(raw.get("volume", 0)))`. -/
def tickVolumeStep (raw : Row) : Except PyExc ℤ :=
  match raw.volume with
  | none => validate_volume 0
  | some vs =>
    match pyInt vs with
    | none => .error .valueError
    | some v => validate_volume v

/-- The `timestamp=` keyword argument of `parse_tick`:
`validate_timestamp(datetime.fromisoformat(raw.get("timestamp", "")))`. -/
def tickTimestampStep (raw : Row) (now : ℤ) : Except PyExc PyDatetime :=
  match pyFromIsoformat (raw.timestamp.getD "") with
  | none => .error .valueError
  | some t => validate_timestamp t now

/-- Function `parse_tick` from `tests/test_ingestion.py`: the `TickData(...)` call
whose keyword arguments are evaluated left to right — symbol, price,
volume, timestamp, exchange — the first raise propagating. -/
def parse_tick (raw : Row) (now : ℤ) : Except PyExc TickData := do
  let symbol ← tickSymbolStep raw
  let price ← tickPriceStep raw
  let volume ← tickVolumeStep raw
  let ts ← tickTimestampStep raw now
  pure ⟨symbol, price, volume, ts, raw.exchange.getD "UNKNOWN"⟩

end TestIngestion

/-! ### `src/ingestion_engine.py` -/

namespace IngestionEngine

/-- One row of the DataFrame handed to `validate_batch`; `none` models a
null (NaN) entry in that column. -/
structure BatchRecord where
  ticker_symbol : Option String := none
  price : Option ℚ := none
  volume : Option ℤ := none
  timestamp : Option String := none
deriving DecidableEq, Repr

/-- Method `FinancialDataPipeline.validate_batch`: when `allow_nulls` is false,
`df.dropna(subset=['ticker_symbol', 'price', 'timestamp'])`, then
`df = df[df['price'] > 0]`; returns the surviving rows together with the
dropped-row count that the function logs (its only record of the dropped
rows). A null price fails the `> 0` comparison, as in pandas. -/
def validate_batch (allowNulls : Bool) (df : List BatchRecord) :
    List BatchRecord × ℕ :=
  let df1 :=
    if allowNulls then df
    else df.filter (fun r =>
      r.ticker_symbol.isSome && r.price.isSome && r.timestamp.isSome)
  let df2 := df1.filter (fun r =>
    match r.price with
    | some p => p > 0
    | none => false)
  (df2, df.length - df2.length)

end IngestionEngine

/-! ### Quality-classification engine, modelled from the spec

No rule-pipeline / quality-tier / market-context code exists in the
repository's source files; the definitions below reconstruct the parts
of it that claim C2 needs, from the specification's §4.2–§4.7. -/

namespace SpecModel

inductive Severity
  | hard
  | soft
deriving DecidableEq, Repr

structure SViolation where
  rule : String
  severity : Severity
deriving DecidableEq, Repr

inductive Quality
  | VERIFIED
  | SUSPECT
  | REJECTED
deriving DecidableEq, Repr

/-- Modelled from the spec: a parsed Tick Record (schema rule already
passed), with the fields the §4.2–§4.5 rules read. -/
structure STick where
  symbol : String
  price : ℚ
  timestamp : ℤ
  seqId : Option ℤ
deriving DecidableEq, Repr

/-- Modelled from the spec: the per-symbol Market Context (§3). -/
structure SContext where
  lastPrice : Option ℚ
  lastTimestamp : Option ℤ
  lastSeqId : Option ℤ
  tickCount : ℕ
deriving DecidableEq, Repr

/-- Modelled from the spec, §4.2 Price Bounds Rule (hard): rejects if
price ≤ 0 or price > 1,000,000. -/
def priceBoundsRule (t : STick) : Option SViolation :=
  if t.price ≤ 0 ∨ t.price > 1000000 then some ⟨"price_bounds", .hard⟩
  else none

/-- Modelled from the spec, §4.3 Price Movement Rule (soft): no prior
price means no violation; otherwise fire when
|price − last_price| / last_price exceeds the 0.30 threshold. -/
def priceMovementRule (t : STick) (ctx : SContext) : Option SViolation :=
  match ctx.lastPrice with
  | none => none
  | some lp =>
    if |t.price - lp| / lp > 3 / 10 then some ⟨"price_movement", .soft⟩
    else none

/-- Modelled from the spec, §4.4 Staleness Rule (soft): fire when
`now − tick.timestamp` exceeds the 2-minute reference threshold. -/
def stalenessRule (t : STick) (now : ℤ) : Option SViolation :=
  if now - t.timestamp > 120 then some ⟨"staleness", .soft⟩ else none

/-- Modelled from the spec, §4.5 Sequence Rule (soft): only when both
sequence ids are present; new ≤ last fires a duplicate/reorder
violation; gaps are advisory-only and raise no violation. -/
def sequenceRule (t : STick) (ctx : SContext) : Option SViolation :=
  match t.seqId, ctx.lastSeqId with
  | some n, some l =>
    if n ≤ l then some ⟨"sequence_duplicate_or_reorder", .soft⟩ else none
  | _, _ => none

/-- Modelled from the spec, §4.7 step 3: run the non-schema rules in the
fixed order price-bounds, price-movement, staleness, sequence, collecting
all violations. -/
def collectViolations (t : STick) (ctx : SContext) (now : ℤ) :
    List SViolation :=
  (priceBoundsRule t).toList ++ (priceMovementRule t ctx).toList ++
    (stalenessRule t now).toList ++ (sequenceRule t ctx).toList

/-- Modelled from the spec, §4.6 Quality Classifier: any hard violation
⇒ REJECTED; otherwise any violation ⇒ SUSPECT; otherwise VERIFIED. -/
def classify (vs : List SViolation) : Quality :=
  if vs.any (fun v => v.severity = .hard) then .REJECTED
  else if vs.isEmpty then .VERIFIED
  else .SUSPECT

/-- Modelled from the spec, §4.7 `validate` on an already-parsed tick:
returns (tick or none, quality, ordered violation list); a REJECTED tick
is not handed back. -/
def specValidate (t : STick) (ctx : SContext) (now : ℤ) :
    Option STick × Quality × List SViolation :=
  let vs := collectViolations t ctx now
  let q := classify vs
  (if q = .REJECTED then none else some t, q, vs)

end SpecModel

/-! ### Concrete inputs used by the witnesses and counterexamples -/

/-- A reference wall-clock instant (2025-06-15T15:06:40Z). -/
def nowRef : ℤ := 1750000000

/-- The parse of `"2025-01-01T00:00:00+00:00"`. -/
def dtGood : PyDatetime := ⟨1735689600, some 0⟩

def rowAAPL : Row :=
  { symbol := some "AAPL", price := some "150.00", volume := some "1000",
    timestamp := some "2025-01-01T00:00:00+00:00" }

def rowBadPrice : Row :=
  { symbol := some "AAPL", price := some "invalid", volume := some "100",
    timestamp := some "2025-01-01T00:00:00+00:00" }

def rowNaiveTs : Row :=
  { symbol := some "AAPL", price := some "150.00", volume := some "100",
    timestamp := some "2025-01-01T00:00:00" }

def rowLongSym : Row :=
  { symbol := some "VERYLONGSYMBOLX", price := some "10", volume := some "5",
    timestamp := some "2025-01-01T00:00:00+00:00" }

def rowLower : Row :=
  { symbol := some " aapl ", price := some "10", volume := some "5",
    timestamp := some "2025-01-01T00:00:00+00:00" }

def rowNoVolume : Row :=
  { symbol := some "AAPL", price := some "150.00",
    timestamp := some "2025-01-01T00:00:00+00:00" }

def rowFracPrice : Row :=
  { symbol := some "AAPL", price := some "1.00006", volume := some "5",
    timestamp := some "2025-01-01T00:00:00+00:00" }

def rowOnlySymbol : Row := { symbol := some "AAPL" }

def rowBadBoth : Row :=
  { symbol := some "  ", price := some "invalid", volume := some "5",
    timestamp := some "2025-01-01T00:00:00+00:00" }

def tickAAPL : TickData := ⟨"AAPL", 150, 1000, dtGood, "UNKNOWN"⟩

def tickLongSym : TickData := ⟨"VERYLONGSYMBOLX", 10, 5, dtGood, "UNKNOWN"⟩

def tickLower : TickData := ⟨"AAPL", 10, 5, dtGood, "UNKNOWN"⟩

def tickFrac : TickData := ⟨"AAPL", mkRat 100006 100000, 5, dtGood, "UNKNOWN"⟩

def tickNoVol : TickData := ⟨"AAPL", 150, 0, dtGood, "UNKNOWN"⟩

/-- The first record of the `__main__` demo batch of `ingestion_engine.py`. -/
def brAAPL : IngestionEngine.BatchRecord :=
  ⟨some "AAPL", some (mkRat 601 4), some 100, some "2023-10-27 10:00:00"⟩

/-- The second (malformed, price −5.00) record of that demo batch. -/
def brGOOGL : IngestionEngine.BatchRecord :=
  ⟨some "GOOGL", some (-5), some 50, some "2023-10-27 10:00:01"⟩

/-- A tick whose price is out of bounds and deviates from the prior
accepted price 100 by far more than 30%. -/
def c2tick : SpecModel.STick := ⟨"AAPL", 2000000, 10, none⟩

def c2ctx : SpecModel.SContext := ⟨some 100, some 0, none, 1⟩

/-- The spec §8 scenario tick: price 75 after an accepted 150. -/
def c2suspectTick : SpecModel.STick := ⟨"AAPL", 75, 10, none⟩

def c2ctx2 : SpecModel.SContext := ⟨some 150, some 0, none, 1⟩

/-- The value `epochSeconds 2025 6 1 12 0 0`. -/
def c5now : ℤ := 1748779200

/-- The parse of `"2025-06-01T12:00:01+00:00"`: one second past `c5now`. -/
def c5ts : PyDatetime := ⟨1748779201, some 0⟩

/-! ### Helper lemmas -/

lemma pyToUpperChar_not_lower (c : Char) :
    pyIsLower (pyToUpperChar c) = false := by
  unfold pyToUpperChar
  split
  · rename_i h
    unfold pyIsLower at h ⊢
    simp only [Bool.and_eq_true, decide_eq_true_eq] at h
    have key : ∀ m : ℕ, m < 91 → 65 ≤ m → (Char.ofNat m).toNat = m := by decide
    simp only [Bool.and_eq_false_iff, decide_eq_false_iff_not, not_le]
    rw [key (c.toNat - 32) (by omega) (by omega)]
    left
    omega
  · rename_i h
    unfold pyIsLower at h ⊢
    simp only [Bool.and_eq_true, decide_eq_true_eq, not_and, not_le] at h
    simp only [Bool.and_eq_false_iff, decide_eq_false_iff_not, not_le]
    omega

lemma noLowerStr_pyUpper (s : String) : noLowerStr (pyUpper s) = true := by
  unfold noLowerStr pyUpper
  simp only [List.all_eq_true, List.mem_map]
  rintro c ⟨a, _, rfl⟩
  simp [pyToUpperChar_not_lower]

/-- Function `validate_and_parse` is the left-to-right composition of its four
validation statements. -/
lemma vap_eq_steps (row : Row) (now : ℤ) :
    RunExample.validate_and_parse row now =
      (RunExample.symbolStep row).bind (fun s =>
        (RunExample.priceStep row).bind (fun p =>
          (RunExample.volumeStep row).bind (fun v =>
            (RunExample.timestampStep row now).bind (fun ts =>
              Except.ok ⟨s, p, v, ts, row.exchange.getD "UNKNOWN"⟩)))) := by
  unfold RunExample.validate_and_parse RunExample.symbolStep
    RunExample.priceStep RunExample.volumeStep RunExample.timestampStep
  rcases row with ⟨os, op, ov, ot, oe⟩
  dsimp only
  cases os with
  | none => rfl
  | some s =>
    dsimp only
    split
    · rfl
    · cases op with
      | none => rfl
      | some ps =>
        dsimp only
        cases pyDecimal ps with
        | none => rfl
        | some p =>
          dsimp only
          split
          · rfl
          · cases ov with
            | none => rfl
            | some vs =>
              dsimp only
              cases pyInt vs with
              | none => rfl
              | some v =>
                dsimp only
                split
                · rfl
                · cases ot with
                  | none => rfl
                  | some ts =>
                    dsimp only
                    cases pyFromIsoformat ts with
                    | none => rfl
                    | some t =>
                      dsimp only
                      cases t.offsetMin with
                      | none => rfl
                      | some o =>
                        dsimp only
                        split <;> rfl

/-! ### Claim C1 -/

/-- C1 (amended): record accounting. Whenever `process_file` returns, the
accepted-tick count plus the rejected-row count equals the input row
count, and every input row either parses to a tick or appears in the
rejected (dead-letter) list with its cause; `validate_batch` instead
returns only the surviving rows plus an aggregate dropped count, and
those two numbers add up to the input count. -/
theorem c1_record_accounting (rows : List Row) (now : ℤ)
    (valid : List TickData) (rejected : List (Row × PyExc))
    (h : RunExample.process_file rows now = .ok (valid, rejected)) :
    valid.length + rejected.length = rows.length ∧
    (∀ r ∈ rows, (∃ t, RunExample.validate_and_parse r now = .ok t) ∨
      ∃ e, (r, e) ∈ rejected) ∧
    (∀ (b : Bool) (batch : List IngestionEngine.BatchRecord),
      (IngestionEngine.validate_batch b batch).1.length +
        (IngestionEngine.validate_batch b batch).2 = batch.length) := by
  have hbatch : ∀ (b : Bool) (batch : List IngestionEngine.BatchRecord),
      (IngestionEngine.validate_batch b batch).1.length +
        (IngestionEngine.validate_batch b batch).2 = batch.length := by
    intro b batch
    unfold IngestionEngine.validate_batch
    dsimp only
    have hle : (List.filter (fun r =>
        match r.price with
        | some p => decide (p > 0)
        | none => false)
        (if b then batch
         else batch.filter (fun r =>
           r.ticker_symbol.isSome && r.price.isSome && r.timestamp.isSome))).length
        ≤ batch.length := by
      refine le_trans (List.length_filter_le _ _) ?_
      split
      · exact le_rfl
      · exact List.length_filter_le _ _
    omega
  induction rows generalizing valid rejected with
  | nil =>
    unfold RunExample.process_file at h
    simp only [Except.ok.injEq, Prod.mk.injEq] at h
    obtain ⟨h1, h2⟩ := h
    subst h1
    subst h2
    exact ⟨rfl, by simp, hbatch⟩
  | cons r rest ih =>
    unfold RunExample.process_file at h
    cases hv : RunExample.validate_and_parse r now with
    | ok t =>
      rw [hv] at h
      cases hrec : RunExample.process_file rest now with
      | error e2 =>
        rw [hrec] at h
        simp [Except.map] at h
      | ok pr =>
        rw [hrec] at h
        simp only [Except.map, Except.ok.injEq, Prod.mk.injEq] at h
        obtain ⟨h1, h2⟩ := h
        subst h1
        subst h2
        obtain ⟨ihlen, ihmem, -⟩ := ih pr.1 pr.2 hrec
        refine ⟨by simpa using by omega, ?_, hbatch⟩
        intro r2 hr2
        rcases List.mem_cons.mp hr2 with hEq | hMem
        · subst hEq
          exact Or.inl ⟨t, hv⟩
        · exact ihmem r2 hMem
    | error e =>
      rw [hv] at h
      dsimp only at h
      cases hc : RunExample.catchable e with
      | false =>
        rw [if_neg (by simp [hc])] at h
        exact absurd h (by simp)
      | true =>
        rw [if_pos hc] at h
        cases hrec : RunExample.process_file rest now with
        | error e2 =>
          rw [hrec] at h
          simp [Except.map] at h
        | ok pr =>
          rw [hrec] at h
          simp only [Except.map, Except.ok.injEq, Prod.mk.injEq] at h
          obtain ⟨h1, h2⟩ := h
          subst h1
          subst h2
          obtain ⟨ihlen, ihmem, -⟩ := ih pr.1 pr.2 hrec
          refine ⟨by simpa using by omega, ?_, hbatch⟩
          intro r2 hr2
          rcases List.mem_cons.mp hr2 with hEq | hMem
          · subst hEq
            exact Or.inr ⟨e, List.mem_cons_self _ _⟩
          · rcases ihmem r2 hMem with hok | ⟨e2, he2⟩
            · exact Or.inl hok
            · exact Or.inr ⟨e2, List.mem_cons_of_mem _ he2⟩

/-- C1 witness: on the two-row batch [good AAPL row, row missing its
volume key] `process_file` returns one tick and one dead-letter entry,
and 1 + 1 = 2. -/
theorem c1_record_accounting_witness :
    [tickAAPL].length + [(rowNoVolume, PyExc.keyError)].length =
      [rowAAPL, rowNoVolume].length :=
  (c1_record_accounting [rowAAPL, rowNoVolume] nowRef [tickAAPL]
    [(rowNoVolume, PyExc.keyError)] rfl).1

/-- C1 counterexample: `validate_batch` on the demo batch drops the
GOOGL record (price −5.00): the record is absent from the returned
frame, and the only other output is the logged aggregate count 1 — no
rejected/dead-letter list records the record or its cause, so its fate
is not observable from the results, contrary to the claim. -/
theorem c1_counterexample :
    IngestionEngine.validate_batch false [brAAPL, brGOOGL] = ([brAAPL], 1) ∧
    brGOOGL ∉ (IngestionEngine.validate_batch false [brAAPL, brGOOGL]).1 := by
  constructor
  · rfl
  · decide

/-! ### Claim C3 -/

/-- C3: price validation fails with a hard violation iff price ≤ 0 or
price > 1,000,000; every price 0 < p ≤ 1,000,000 is accepted, both by
`validate_price` (returning the price) and by the bounds check inside
`validate_and_parse` (which does not raise). -/
theorem c3_price_bounds (p : ℚ) (row : Row) (s : String) :
    (TestIngestion.validate_price p = .ok p ↔ 0 < p ∧ p ≤ 1000000) ∧
    ((p ≤ 0 ∨ p > 1000000) →
      TestIngestion.validate_price p =
        .error (.validationError
          (if p ≤ 0 then .pricePositive else .priceExceedsMax))) ∧
    (row.price = some s → pyDecimal s = some p →
      (RunExample.priceStep row = .ok p ↔ 0 < p ∧ p ≤ 1000000)) := by
  refine ⟨?_, ?_, ?_⟩
  · by_cases h1 : p ≤ 0
    · unfold TestIngestion.validate_price
      rw [if_pos h1]
      exact iff_of_false (fun h => Except.noConfusion h)
        (fun hc => absurd h1 (not_le.mpr hc.1))
    · by_cases h2 : p > 1000000
      · unfold TestIngestion.validate_price
        rw [if_neg h1, if_pos h2]
        exact iff_of_false (fun h => Except.noConfusion h)
          (fun hc => absurd h2 (not_lt.mpr hc.2))
      · unfold TestIngestion.validate_price
        rw [if_neg h1, if_neg h2]
        exact iff_of_true rfl ⟨not_le.mp h1, not_lt.mp h2⟩
  · intro hor
    by_cases h1 : p ≤ 0
    · unfold TestIngestion.validate_price
      rw [if_pos h1, if_pos h1]
    · have h2 : p > 1000000 := by
        rcases hor with h | h
        · exact absurd h h1
        · exact h
      unfold TestIngestion.validate_price
      rw [if_neg h1, if_pos h2, if_neg h1]
  · intro hrow hparse
    unfold RunExample.priceStep
    rw [hrow]
    dsimp only
    rw [hparse]
    dsimp only
    by_cases hb : p ≤ 0 ∨ p > 1000000
    · rw [if_pos hb]
      refine iff_of_false (fun h => Except.noConfusion h) ?_
      rintro ⟨a, b⟩
      rcases hb with h | h
      · linarith
      · linarith
    · rw [if_neg hb]
      push_neg at hb
      exact iff_of_true rfl ⟨hb.1, hb.2⟩

/-- C3 witness: the in-bounds price 150 passes both checks. -/
theorem c3_price_bounds_witness :
    TestIngestion.validate_price 150 = .ok 150 ∧
    RunExample.priceStep rowAAPL = .ok 150 := by
  have h := c3_price_bounds 150 rowAAPL "150.00"
  exact ⟨h.1.mpr (by decide), (h.2.2 rfl rfl).mpr (by decide)⟩

/-! ### Claim C4 -/

/-- C4 (code bug evaluated): on a row whose price string is not decimal
(`"invalid"`), `Decimal` raises `decimal.InvalidOperation`, which the
`except (ValidationError, ValueError, KeyError)` clause of `process_file`
does not catch, so `process_file` raises instead of returning the row in
the rejected list; likewise a timezone-naive timestamp makes the
future-check comparison raise an uncaught `TypeError`. -/
theorem c4_uncaught_exceptions :
    RunExample.process_file [rowBadPrice] nowRef = .error .invalidOperation ∧
    RunExample.process_file [rowNaiveTs] nowRef = .error .typeError :=
  ⟨rfl, rfl⟩

/-! ### Claim C5 -/

/-- C5 counterexample: a timestamp exactly 1 second ahead of the clock —
well within the claimed 5-second skew tolerance — is rejected by
`validate_timestamp` with a future-timestamp violation, because the code
rejects any strictly future timestamp with no tolerance. -/
theorem c5_counterexample :
    pyFromIsoformat "2025-06-01T12:00:01+00:00" = some c5ts ∧
    c5ts.fieldsEpoch - 0 * 60 - c5now = 1 ∧
    TestIngestion.validate_timestamp c5ts c5now =
      .error (.validationError .timestampFuture) :=
  ⟨rfl, rfl, rfl⟩

/-- C5 (amended): future timestamps are rejected with zero tolerance —
an aware timestamp fails (with the future-timestamp violation) iff its
UTC instant is strictly greater than the clock, and passes iff it is at
or before the clock; the same holds for the timestamp check inside
`validate_and_parse`. -/
theorem c5_zero_tolerance (ts : PyDatetime) (o now : ℤ)
    (ho : ts.offsetMin = some o) :
    (TestIngestion.validate_timestamp ts now = .ok ts ↔
      ts.fieldsEpoch - o * 60 ≤ now) ∧
    (TestIngestion.validate_timestamp ts now =
        .error (.validationError .timestampFuture) ↔
      ts.fieldsEpoch - o * 60 > now) ∧
    (∀ row s2, row.timestamp = some s2 → pyFromIsoformat s2 = some ts →
      (RunExample.timestampStep row now = .ok ts ↔
        ts.fieldsEpoch - o * 60 ≤ now)) := by
  refine ⟨?_, ?_, ?_⟩
  · unfold TestIngestion.validate_timestamp
    rw [ho]
    dsimp only
    by_cases h : ts.fieldsEpoch - o * 60 > now
    · rw [if_pos h]
      exact iff_of_false (fun hc => Except.noConfusion hc) (by omega)
    · rw [if_neg h]
      exact iff_of_true rfl (by omega)
  · unfold TestIngestion.validate_timestamp
    rw [ho]
    dsimp only
    by_cases h : ts.fieldsEpoch - o * 60 > now
    · rw [if_pos h]
      exact iff_of_true rfl h
    · rw [if_neg h]
      exact iff_of_false (fun hc => Except.noConfusion hc) h
  · intro row s2 h1 h2
    unfold RunExample.timestampStep
    rw [h1]
    dsimp only
    rw [h2]
    dsimp only
    rw [ho]
    dsimp only
    by_cases h : ts.fieldsEpoch - o * 60 > now
    · rw [if_pos h]
      exact iff_of_false (fun hc => Except.noConfusion hc) (by omega)
    · rw [if_neg h]
      exact iff_of_true rfl (by omega)

/-- C5 witness: a past aware timestamp passes `validate_timestamp`. -/
theorem c5_zero_tolerance_witness :
    TestIngestion.validate_timestamp dtGood nowRef = .ok dtGood :=
  (c5_zero_tolerance dtGood 0 nowRef rfl).1.mpr (by decide)

/-! ### Claim C6 -/

lemma except_bind_eq_ok {ε α β : Type} {x : Except ε α} {f : α → Except ε β}
    {b : β} (h : x.bind f = .ok b) : ∃ a, x = .ok a ∧ f a = .ok b := by
  cases x with
  | error e => exact absurd h (fun hc => Except.noConfusion hc)
  | ok a => exact ⟨a, rfl, h⟩

/-- C6 counterexample: `validate_and_parse` accepts the 15-character
symbol `"VERYLONGSYMBOLX"` unchanged — no maximum-length-10 rule is
applied on this path, so an accepted tick's symbol can be longer than
10 characters, contrary to the claim. -/
theorem c6_counterexample :
    RunExample.validate_and_parse rowLongSym nowRef = .ok tickLongSym ∧
    tickLongSym.symbol.length > 10 :=
  ⟨rfl, by decide⟩

/-- C6 (amended, scoped to `validate_and_parse`): the symbol is trimmed
and upper-cased before validation; a symbol that is empty after
normalization fails with the empty-symbol violation; every accepted
tick's symbol is the normalized form — non-empty and containing no
lowercase letter — but its length is not bounded. (`validate_symbol` /
`parse_tick` instead rejects any non-`isupper` symbol without
normalizing, and does bound the length by 10.) -/
theorem c6_symbol_normalization (row : Row) (now : ℤ) (s : String)
    (hs : row.symbol = some s) :
    (pyUpper (pyStrip s) = "" →
      RunExample.validate_and_parse row now =
        .error (.validationError .emptySymbol)) ∧
    (∀ t, RunExample.validate_and_parse row now = .ok t →
      t.symbol = pyUpper (pyStrip s) ∧ t.symbol ≠ "" ∧
        noLowerStr t.symbol = true) := by
  constructor
  · intro hemp
    rw [vap_eq_steps]
    have hss : RunExample.symbolStep row =
        .error (.validationError .emptySymbol) := by
      unfold RunExample.symbolStep
      rw [hs]
      dsimp only
      rw [if_pos hemp]
    rw [hss]
    rfl
  · intro t ht
    rw [vap_eq_steps] at ht
    obtain ⟨sym, hss, ht⟩ := except_bind_eq_ok ht
    obtain ⟨p, hps, ht⟩ := except_bind_eq_ok ht
    obtain ⟨v, hvs, ht⟩ := except_bind_eq_ok ht
    obtain ⟨ts, hts, ht⟩ := except_bind_eq_ok ht
    have htEq : t = ⟨sym, p, v, ts, row.exchange.getD "UNKNOWN"⟩ := by
      injection ht with h2
      exact h2.symm
    have hsym : sym = pyUpper (pyStrip s) ∧ sym ≠ "" := by
      unfold RunExample.symbolStep at hss
      rw [hs] at hss
      dsimp only at hss
      by_cases hemp : pyUpper (pyStrip s) = ""
      · rw [if_pos hemp] at hss
        exact Except.noConfusion hss
      · rw [if_neg hemp] at hss
        injection hss with h2
        exact ⟨h2.symm, h2 ▸ hemp⟩
    subst htEq
    refine ⟨hsym.1, hsym.2, ?_⟩
    dsimp only
    rw [hsym.1]
    exact noLowerStr_pyUpper _

/-- C6 witness: the row with raw symbol `" aapl "` parses to a tick whose
symbol is the trimmed upper-cased `"AAPL"`, non-empty and free of
lowercase letters. -/
theorem c6_symbol_normalization_witness :
    tickLower.symbol = pyUpper (pyStrip " aapl ") ∧ tickLower.symbol ≠ "" ∧
      noLowerStr tickLower.symbol = true :=
  (c6_symbol_normalization rowLower nowRef " aapl " rfl).2 tickLower rfl

/-! ### Claim C7 -/

/-- Function `parse_tick` is the left-to-right composition of its four keyword
argument evaluations. -/
lemma pt_eq_steps (raw : Row) (now : ℤ) :
    TestIngestion.parse_tick raw now =
      (TestIngestion.tickSymbolStep raw).bind (fun symbol =>
        (TestIngestion.tickPriceStep raw).bind (fun price =>
          (TestIngestion.tickVolumeStep raw).bind (fun volume =>
            (TestIngestion.tickTimestampStep raw now).bind (fun ts =>
              Except.ok ⟨symbol, price, volume, ts,
                raw.exchange.getD "UNKNOWN"⟩)))) := rfl

/-- C7: both schema parsers check the fields in the fixed order symbol,
price, volume, timestamp, raise at the first failing step, and are
atomic: a returned tick has passed every step (each field equal to its
step's output), and any step failure (with earlier steps passing) makes
the whole parse fail with exactly that step's error, so no partially
constructed tick is ever returned. -/
theorem c7_parse_order (row : Row) (now : ℤ) :
    ((∀ e, RunExample.symbolStep row = .error e →
        RunExample.validate_and_parse row now = .error e) ∧
     (∀ s e, RunExample.symbolStep row = .ok s →
        RunExample.priceStep row = .error e →
        RunExample.validate_and_parse row now = .error e) ∧
     (∀ s p e, RunExample.symbolStep row = .ok s →
        RunExample.priceStep row = .ok p →
        RunExample.volumeStep row = .error e →
        RunExample.validate_and_parse row now = .error e) ∧
     (∀ s p v e, RunExample.symbolStep row = .ok s →
        RunExample.priceStep row = .ok p →
        RunExample.volumeStep row = .ok v →
        RunExample.timestampStep row now = .error e →
        RunExample.validate_and_parse row now = .error e) ∧
     (∀ t, RunExample.validate_and_parse row now = .ok t →
        RunExample.symbolStep row = .ok t.symbol ∧
        RunExample.priceStep row = .ok t.price ∧
        RunExample.volumeStep row = .ok t.volume ∧
        RunExample.timestampStep row now = .ok t.timestamp ∧
        t.exchange = row.exchange.getD "UNKNOWN")) ∧
    ((∀ e, TestIngestion.tickSymbolStep row = .error e →
        TestIngestion.parse_tick row now = .error e) ∧
     (∀ s e, TestIngestion.tickSymbolStep row = .ok s →
        TestIngestion.tickPriceStep row = .error e →
        TestIngestion.parse_tick row now = .error e) ∧
     (∀ s p e, TestIngestion.tickSymbolStep row = .ok s →
        TestIngestion.tickPriceStep row = .ok p →
        TestIngestion.tickVolumeStep row = .error e →
        TestIngestion.parse_tick row now = .error e) ∧
     (∀ s p v e, TestIngestion.tickSymbolStep row = .ok s →
        TestIngestion.tickPriceStep row = .ok p →
        TestIngestion.tickVolumeStep row = .ok v →
        TestIngestion.tickTimestampStep row now = .error e →
        TestIngestion.parse_tick row now = .error e) ∧
     (∀ t, TestIngestion.parse_tick row now = .ok t →
        TestIngestion.tickSymbolStep row = .ok t.symbol ∧
        TestIngestion.tickPriceStep row = .ok t.price ∧
        TestIngestion.tickVolumeStep row = .ok t.volume ∧
        TestIngestion.tickTimestampStep row now = .ok t.timestamp ∧
        t.exchange = row.exchange.getD "UNKNOWN")) := by
  refine ⟨⟨?_, ?_, ?_, ?_, ?_⟩, ⟨?_, ?_, ?_, ?_, ?_⟩⟩
  · intro e h1
    rw [vap_eq_steps, h1]
    rfl
  · intro s e h1 h2
    rw [vap_eq_steps, h1]
    dsimp only [Except.bind]
    rw [h2]
  · intro s p e h1 h2 h3
    rw [vap_eq_steps, h1]
    dsimp only [Except.bind]
    rw [h2]
    dsimp only [Except.bind]
    rw [h3]
  · intro s p v e h1 h2 h3 h4
    rw [vap_eq_steps, h1]
    dsimp only [Except.bind]
    rw [h2]
    dsimp only [Except.bind]
    rw [h3]
    dsimp only [Except.bind]
    rw [h4]
  · intro t ht
    rw [vap_eq_steps] at ht
    obtain ⟨sym, h1, ht⟩ := except_bind_eq_ok ht
    obtain ⟨p, h2, ht⟩ := except_bind_eq_ok ht
    obtain ⟨v, h3, ht⟩ := except_bind_eq_ok ht
    obtain ⟨ts, h4, ht⟩ := except_bind_eq_ok ht
    have htEq : t = ⟨sym, p, v, ts, row.exchange.getD "UNKNOWN"⟩ := by
      injection ht with h5
      exact h5.symm
    subst htEq
    exact ⟨h1, h2, h3, h4, rfl⟩
  · intro e h1
    rw [pt_eq_steps, h1]
    rfl
  · intro s e h1 h2
    rw [pt_eq_steps, h1]
    dsimp only [Except.bind]
    rw [h2]
  · intro s p e h1 h2 h3
    rw [pt_eq_steps, h1]
    dsimp only [Except.bind]
    rw [h2]
    dsimp only [Except.bind]
    rw [h3]
  · intro s p v e h1 h2 h3 h4
    rw [pt_eq_steps, h1]
    dsimp only [Except.bind]
    rw [h2]
    dsimp only [Except.bind]
    rw [h3]
    dsimp only [Except.bind]
    rw [h4]
  · intro t ht
    rw [pt_eq_steps] at ht
    obtain ⟨sym, h1, ht⟩ := except_bind_eq_ok ht
    obtain ⟨p, h2, ht⟩ := except_bind_eq_ok ht
    obtain ⟨v, h3, ht⟩ := except_bind_eq_ok ht
    obtain ⟨ts, h4, ht⟩ := except_bind_eq_ok ht
    have htEq : t = ⟨sym, p, v, ts, row.exchange.getD "UNKNOWN"⟩ := by
      injection ht with h5
      exact h5.symm
    subst htEq
    exact ⟨h1, h2, h3, h4, rfl⟩

/-- C7 witness: on a row whose symbol is blank and whose price is also
malformed, the parse fails with the symbol step's error — the first
failing step in the fixed order — on both parsers. -/
theorem c7_parse_order_witness :
    RunExample.validate_and_parse rowBadBoth nowRef =
      .error (.validationError .emptySymbol) ∧
    TestIngestion.parse_tick rowBadBoth nowRef =
      .error (.validationError .invalidSymbol) :=
  ⟨(c7_parse_order rowBadBoth nowRef).1.1 _ rfl,
   (c7_parse_order rowBadBoth nowRef).2.1 _ rfl⟩

/-! ### Claim C8 -/

/-- C8 counterexample: the row with price string `"1.00006"` is accepted
and its stored price has denominator 50000, which does not divide 10⁴ —
so the stored price is not any value with (at most) 4 fractional digits:
no scaling/rounding to 4 fractional digits is applied. -/
theorem c8_counterexample :
    RunExample.validate_and_parse rowFracPrice nowRef = .ok tickFrac ∧
    tickFrac.price.den = 50000 ∧ ¬(tickFrac.price.den ∣ 10 ^ 4) :=
  ⟨rfl, rfl, by decide⟩

/-- C8 (amended): the stored price is exactly the decimal value parsed
from the input string, with no scaling or rounding: any accepted tick's
price is the `Decimal` parse of its row's price field. -/
theorem c8_exact_price (row : Row) (now : ℤ) (s : String) (t : TickData)
    (hp : row.price = some s)
    (ht : RunExample.validate_and_parse row now = .ok t) :
    pyDecimal s = some t.price := by
  rw [vap_eq_steps] at ht
  obtain ⟨sym, h1, ht⟩ := except_bind_eq_ok ht
  obtain ⟨p, h2, ht⟩ := except_bind_eq_ok ht
  obtain ⟨v, h3, ht⟩ := except_bind_eq_ok ht
  obtain ⟨ts, h4, ht⟩ := except_bind_eq_ok ht
  have htEq : t = ⟨sym, p, v, ts, row.exchange.getD "UNKNOWN"⟩ := by
    injection ht with h5
    exact h5.symm
  subst htEq
  dsimp only
  unfold RunExample.priceStep at h2
  rw [hp] at h2
  dsimp only at h2
  cases hd : pyDecimal s with
  | none =>
    rw [hd] at h2
    exact Except.noConfusion h2
  | some q =>
    rw [hd] at h2
    dsimp only at h2
    by_cases hb : q ≤ 0 ∨ q > 1000000
    · rw [if_pos hb] at h2
      exact Except.noConfusion h2
    · rw [if_neg hb] at h2
      injection h2 with h6
      rw [h6]

/-- C8 witness: the spec scenario — price string `"150.00"` is stored as
the exact value 150, numerically equal to 150.0000. -/
theorem c8_exact_price_witness :
    pyDecimal "150.00" = some tickAAPL.price ∧ tickAAPL.price = 150 ∧
      (150 : ℚ) = mkRat 1500000 10000 :=
  ⟨c8_exact_price rowAAPL nowRef "150.00" tickAAPL rfl rfl, rfl, by decide⟩

/-! ### Claim C9 -/

/-- C9 counterexample: a row whose other fields are all valid but which
has no volume key is not accepted with volume 0 by `validate_and_parse`:
`int(row["volume"])` raises `KeyError` and the row is rejected. -/
theorem c9_counterexample :
    RunExample.validate_and_parse rowNoVolume nowRef = .error .keyError ∧
    RunExample.process_file [rowNoVolume] nowRef =
      .ok ([], [(rowNoVolume, .keyError)]) :=
  ⟨rfl, rfl⟩

/-- C9 (amended): in `parse_tick` a missing volume defaults to 0 and the
tick is accepted with volume 0 (when the other steps pass), while in
`validate_and_parse` a missing volume key raises `KeyError` and the
record is rejected; in both, a present volume must parse as an integer
(else `ValueError`) and a negative volume is rejected. -/
theorem c9_volume_handling (row : Row) (now : ℤ) :
    (row.volume = none → TestIngestion.tickVolumeStep row = .ok 0) ∧
    (∀ t, row.volume = none → TestIngestion.parse_tick row now = .ok t →
      t.volume = 0) ∧
    (∀ s p, row.volume = none → RunExample.symbolStep row = .ok s →
      RunExample.priceStep row = .ok p →
      RunExample.validate_and_parse row now = .error .keyError) ∧
    (∀ vs, row.volume = some vs → pyInt vs = none →
      TestIngestion.tickVolumeStep row = .error .valueError ∧
      RunExample.volumeStep row = .error .valueError) ∧
    (∀ vs v, row.volume = some vs → pyInt vs = some v → v < 0 →
      TestIngestion.tickVolumeStep row =
        .error (.validationError .volumeNegative) ∧
      RunExample.volumeStep row =
        .error (.validationError .negativeVolume)) := by
  refine ⟨?_, ?_, ?_, ?_, ?_⟩
  · intro hv
    unfold TestIngestion.tickVolumeStep
    rw [hv]
    rfl
  · intro t hv ht
    rw [pt_eq_steps] at ht
    obtain ⟨sym, h1, ht⟩ := except_bind_eq_ok ht
    obtain ⟨p, h2, ht⟩ := except_bind_eq_ok ht
    obtain ⟨v, h3, ht⟩ := except_bind_eq_ok ht
    obtain ⟨ts, h4, ht⟩ := except_bind_eq_ok ht
    have htEq : t = ⟨sym, p, v, ts, row.exchange.getD "UNKNOWN"⟩ := by
      injection ht with h5
      exact h5.symm
    subst htEq
    dsimp only
    unfold TestIngestion.tickVolumeStep at h3
    rw [hv] at h3
    dsimp only at h3
    unfold TestIngestion.validate_volume at h3
    rw [if_neg (by decide)] at h3
    injection h3 with h6
    exact h6.symm
  · intro s p hv h1 h2
    rw [vap_eq_steps, h1]
    dsimp only [Except.bind]
    rw [h2]
    dsimp only [Except.bind]
    have h3 : RunExample.volumeStep row = .error .keyError := by
      unfold RunExample.volumeStep
      rw [hv]
    rw [h3]
  · intro vs h1 h2
    constructor
    · unfold TestIngestion.tickVolumeStep
      rw [h1]
      dsimp only
      rw [h2]
    · unfold RunExample.volumeStep
      rw [h1]
      dsimp only
      rw [h2]
  · intro vs v h1 h2 hneg
    constructor
    · unfold TestIngestion.tickVolumeStep
      rw [h1]
      dsimp only
      rw [h2]
      dsimp only
      unfold TestIngestion.validate_volume
      rw [if_pos hneg]
    · unfold RunExample.volumeStep
      rw [h1]
      dsimp only
      rw [h2]
      dsimp only
      rw [if_pos hneg]

/-- C9 witness: `parse_tick` on the row with no volume key yields the
tick with volume 0. -/
theorem c9_volume_handling_witness :
    rowNoVolume.volume = none ∧ tickNoVol.volume = 0 :=
  ⟨rfl, (c9_volume_handling rowNoVolume nowRef).2.1 tickNoVol rfl rfl⟩

/-! ### Claim C10 -/

/-- C10: a raw mapping with no price key never yields a tick from
`parse_tick`: the price defaults to 0, which fails the strictly-positive
bound, so (when the symbol step passes, price being the next step) the
parse fails with the positive-price `ValidationError`, not a
missing-field error. -/
theorem c10_missing_price_default (raw : Row) (now : ℤ)
    (h : raw.price = none) :
    (∀ t, TestIngestion.parse_tick raw now ≠ .ok t) ∧
    (∀ s, TestIngestion.tickSymbolStep raw = .ok s →
      TestIngestion.parse_tick raw now =
        .error (.validationError .pricePositive)) := by
  have hprice : TestIngestion.tickPriceStep raw =
      .error (.validationError .pricePositive) := by
    unfold TestIngestion.tickPriceStep
    rw [h]
    rfl
  constructor
  · intro t ht
    rw [pt_eq_steps] at ht
    obtain ⟨sym, h1, ht⟩ := except_bind_eq_ok ht
    obtain ⟨p, h2, ht⟩ := except_bind_eq_ok ht
    rw [hprice] at h2
    exact Except.noConfusion h2
  · intro s h1
    rw [pt_eq_steps, h1]
    dsimp only [Except.bind]
    rw [hprice]

/-- C10 witness: the mapping holding only a symbol is rejected by
`parse_tick` with the positive-price violation. -/
theorem c10_missing_price_default_witness :
    TestIngestion.parse_tick rowOnlySymbol nowRef =
      .error (.validationError .pricePositive) :=
  (c10_missing_price_default rowOnlySymbol nowRef rfl).2 "AAPL" rfl

/-! ### Claim C2 -/

/-- C2 counterexample (on the spec-modelled engine): a tick whose price
deviates from the prior accepted price 100 by far more than 30% but is
also out of bounds (2,000,000 > 1,000,000) triggers the hard
price-bounds rule: the violation list does contain "price_movement", but
quality is REJECTED — not SUSPECT — and the tick is NOT returned, so the
claim's universal statement fails. -/
theorem c2_counterexample :
    |c2tick.price - (100 : ℚ)| / 100 > 3 / 10 ∧
    SpecModel.specValidate c2tick c2ctx 10 =
      (none, SpecModel.Quality.REJECTED,
        [⟨"price_bounds", SpecModel.Severity.hard⟩,
         ⟨"price_movement", SpecModel.Severity.soft⟩]) := by
  have habs : |(2000000 : ℚ) - 100| = 1999900 := by
    rw [show (2000000 : ℚ) - 100 = 1999900 from by norm_num]
    exact abs_of_pos (by norm_num)
  have hdev : |(2000000 : ℚ) - 100| / 100 > 3 / 10 := by
    rw [habs]
    norm_num
  constructor
  · exact hdev
  · have hpb : SpecModel.priceBoundsRule c2tick =
        some ⟨"price_bounds", SpecModel.Severity.hard⟩ := by
      unfold SpecModel.priceBoundsRule
      rw [if_pos (Or.inr (by decide))]
    have hpm : SpecModel.priceMovementRule c2tick c2ctx =
        some ⟨"price_movement", SpecModel.Severity.soft⟩ := by
      unfold SpecModel.priceMovementRule c2ctx c2tick
      dsimp only
      rw [if_pos hdev]
    have hst : SpecModel.stalenessRule c2tick 10 = none := by
      unfold SpecModel.stalenessRule
      rw [if_neg (by decide)]
    have hsq : SpecModel.sequenceRule c2tick c2ctx = none := rfl
    unfold SpecModel.specValidate SpecModel.collectViolations
    rw [hpb, hpm, hst, hsq]
    rfl

/-- C2 (amended, on the spec-modelled engine): for every tick that has a
prior accepted price, deviates from it by more than the 0.30 movement
threshold, and passes the hard price-bounds rule (0 < price ≤ 1,000,000),
validation returns quality SUSPECT, the ordered violation list contains
"price_movement" (soft), and the tick itself is returned (non-none) —
soft violations degrade confidence, not admission. -/
theorem c2_price_movement_suspect (t : SpecModel.STick)
    (ctx : SpecModel.SContext) (now : ℤ) (lp : ℚ)
    (hlp : ctx.lastPrice = some lp)
    (hdev : |t.price - lp| / lp > 3 / 10)
    (hlo : 0 < t.price) (hhi : t.price ≤ 1000000) :
    (SpecModel.specValidate t ctx now).1 = some t ∧
    (SpecModel.specValidate t ctx now).2.1 = SpecModel.Quality.SUSPECT ∧
    (⟨"price_movement", SpecModel.Severity.soft⟩ : SpecModel.SViolation) ∈
      (SpecModel.specValidate t ctx now).2.2 := by
  have hpb : SpecModel.priceBoundsRule t = none := by
    unfold SpecModel.priceBoundsRule
    rw [if_neg]
    rintro (h | h)
    · linarith
    · linarith
  have hpm : SpecModel.priceMovementRule t ctx =
      some ⟨"price_movement", SpecModel.Severity.soft⟩ := by
    unfold SpecModel.priceMovementRule
    rw [hlp]
    dsimp only
    rw [if_pos hdev]
  have hst : SpecModel.stalenessRule t now = none ∨
      SpecModel.stalenessRule t now =
        some ⟨"staleness", SpecModel.Severity.soft⟩ := by
    unfold SpecModel.stalenessRule
    split
    · exact Or.inr rfl
    · exact Or.inl rfl
  have hsq : SpecModel.sequenceRule t ctx = none ∨
      SpecModel.sequenceRule t ctx =
        some ⟨"sequence_duplicate_or_reorder", SpecModel.Severity.soft⟩ := by
    unfold SpecModel.sequenceRule
    cases t.seqId with
    | none => exact Or.inl rfl
    | some n =>
      cases ctx.lastSeqId with
      | none => exact Or.inl rfl
      | some l =>
        dsimp only
        split
        · exact Or.inr rfl
        · exact Or.inl rfl
  unfold SpecModel.specValidate SpecModel.collectViolations
    SpecModel.classify
  rcases hst with h1 | h1 <;> rcases hsq with h2 | h2 <;>
    rw [hpb, hpm, h1, h2] <;> simp [SpecModel.Severity.hard]

/-- C2 witness: the spec §8 scenario — price 75 after an accepted 150
(a 50% move, in bounds) — yields SUSPECT, a "price_movement" violation,
and the tick is returned. -/
theorem c2_price_movement_suspect_witness :
    c2ctx2.lastPrice = some 150 ∧
    (SpecModel.specValidate c2suspectTick c2ctx2 10).1 =
      some c2suspectTick ∧
    (SpecModel.specValidate c2suspectTick c2ctx2 10).2.1 =
      SpecModel.Quality.SUSPECT ∧
    (⟨"price_movement", SpecModel.Severity.soft⟩ : SpecModel.SViolation) ∈
      (SpecModel.specValidate c2suspectTick c2ctx2 10).2.2 := by
  have hdev : |c2suspectTick.price - (150 : ℚ)| / 150 > 3 / 10 := by
    show |(75 : ℚ) - 150| / 150 > 3 / 10
    rw [show (75 : ℚ) - 150 = -75 from by norm_num, abs_neg,
      abs_of_pos (show (0 : ℚ) < 75 from by norm_num)]
    norm_num
  exact ⟨rfl, c2_price_movement_suspect c2suspectTick c2ctx2 10 150 rfl hdev
    (by decide) (by decide)⟩
